import Mathlib

/-!
Verification development for the sreedapride water-billing workbook tools.

The Python source is shallowly embedded: pandas/openpyxl pipelines become
explicit list transformations over a typed cell model, numeric cells are
rationals, and fallible operations return `Option`/`Except`.  Each section
names the source function it embeds (`src/src/data_processor.py`,
`src/src/billing_processor.py`).
-/

namespace Sreedapride

/-- A spreadsheet cell value as pandas materializes it: a numeric cell,
a text cell, or an empty (NaN) cell.  A numeric-looking text cell (one that
`pd.to_numeric` would parse) is represented by the `num` case, since the
embedding models values after pandas coercion semantics. -/
inductive Cell where
  | num (q : ℚ)
  | text (s : String)
  | empty
deriving DecidableEq, Repr

/-- Whether the character list `pat` is a leading segment of `l`. -/
def charsLead : List Char → List Char → Bool
  | [], _ => true
  | _ :: _, [] => false
  | a :: as, b :: bs => a = b && charsLead as bs

/-- Whether the character list `pat` occurs contiguously inside `l`
(Python's `in` operator on strings). -/
def charsSeg (pat : List Char) : List Char → Bool
  | [] => charsLead pat []
  | b :: bs => charsLead pat (b :: bs) || charsSeg pat bs

/-- Python's `pat in s` substring test. -/
def strContains (s pat : String) : Bool :=
  charsSeg pat.toList s.toList

/-- Python's `s.lower()`, written character-wise so that it evaluates
inside the kernel. -/
def pyLower (s : String) : String :=
  ⟨s.toList.map Char.toLower⟩

/-- Python's `any(k in s for k in kws)`. -/
def containsAny (s : String) (kws : List String) : Bool :=
  kws.any (fun k => strContains s k)

/-! ## FlatDataProcessor configuration (data_processor.py lines 14-16) -/

/-- `self.priority_sheets` from `FlatDataProcessor.__init__`.  (The first
entry contains an upper-case letter while it is matched against lower-cased
sheet names, exactly as in the source.) -/
def prioritySheets : List String :=
  ["Final allocation monthly", "final allocation", "allocation"]

/-- `self.exclude_keywords` from `FlatDataProcessor.__init__`. -/
def excludeKeywords : List String :=
  ["wegot", "charges", "chart", "input", "dues_tmpt"]

/-- Whether a sheet name matches the deny-list
(`any(exclude in sheet_name.lower() for exclude in self.exclude_keywords)`). -/
def isExcludedSheet (name : String) : Bool :=
  containsAny (pyLower name) excludeKeywords

/-- The priority phase of `_get_processing_order`: for each priority marker
(in listed order) append the first sheet whose lower-cased name contains it,
then `break`. -/
def addPriority (names : List String) : List String :=
  prioritySheets.foldl
    (fun acc p =>
      match names.find? (fun s => strContains (pyLower s) p) with
      | some s => acc ++ [s]
      | none => acc)
    []

/-- The remaining phase of `_get_processing_order`: append each sheet not
already in the order and not matching the deny-list, in workbook order. -/
def addRemaining (order : List String) (names : List String) : List String :=
  names.foldl
    (fun acc s => if s ∈ acc ∨ isExcludedSheet s then acc else acc ++ [s])
    order

/-- `FlatDataProcessor._get_processing_order` (data_processor.py lines 47-64). -/
def getProcessingOrder (names : List String) : List String :=
  addRemaining (addPriority names) names

/-- A snapshot table: the `[["Flat", "Amount"]]` frame the extractors return,
one row per retained source row. -/
abbrev Table := List (String × ℚ)

/-- The sheet loop of `load_flat_data` (lines 37-42): return the first
sheet's table whose `_process_sheet` result is not `None`. -/
def firstHit : List String → (String → Option Table) → Option Table
  | [], _ => none
  | s :: rest, process =>
      match process s with
      | some t => some t
      | none => firstHit rest process

/-- `FlatDataProcessor.load_flat_data` given an already-opened workbook:
process sheets in priority order, first non-`None` result wins.
`process` abstracts `_process_sheet` for the workbook at hand. -/
def loadFlatDataWith (process : String → Option Table) (names : List String) :
    Option Table :=
  firstHit (getProcessingOrder names) process

/-- `FlatDataProcessor.load_flat_data` (lines 18-45) including its outer
`try/except`: when opening the byte stream as a workbook fails
(`pd.ExcelFile` raises), the exception is caught and `None` is returned. -/
def loadFlatData (openResult : Except String (List (String × Option Table))) :
    Option Table :=
  match openResult with
  | .error _ => none
  | .ok sheets =>
      loadFlatDataWith
        (fun n => (sheets.find? (fun p => p.1 == n)).bind (fun p => p.2))
        (sheets.map Prod.fst)

/-- `WeGotDataProcessor.load_billing_template` (billing_processor.py lines
49-65): any exception while opening/reading the workbook is re-raised as
`Exception("Error loading billing template: ...")` — surfaced, no fallback. -/
def loadBillingTemplate (openResult : Except String (List (String × Table))) :
    Except String (List (String × Table)) :=
  match openResult with
  | .ok sheets => .ok sheets
  | .error e => .error ("Error loading billing template: " ++ e)

/-! ## Cell-level coercions shared by the extractors -/

/-- pandas `astype(str)` on a cell: numbers print, text passes through, and
a NaN (empty) cell stringifies to `"nan"`.  (Rational rendering differs
from Python float rendering, which is immaterial here: identifier columns
hold text in every retained row.) -/
def cellToStr : Cell → String
  | .num q => toString q
  | .text s => s
  | .empty => "nan"

/-- `pd.to_numeric(col, errors='coerce').fillna(0)` on one cell: a numeric
cell keeps its value, anything unparsable becomes NaN and then 0. -/
def toNumericD : Cell → ℚ
  | .num q => q
  | .text _ => 0
  | .empty => 0

/-- Python `s.strip()`. -/
def pyTrim (s : String) : String :=
  ⟨((s.toList.dropWhile Char.isWhitespace).reverse.dropWhile
      Char.isWhitespace).reverse⟩

/-- Python `s.replace(c, '')` for a single character. -/
def dropChar (s : String) (c : Char) : String :=
  ⟨s.toList.filter (fun a => a ≠ c)⟩

/-! ## FlatDataProcessor._find_billing_columns (data_processor.py 121-136) -/

/-- The keyword list of the amount branch of `_find_billing_columns`. -/
def amountKeywords : List String :=
  ["amount*", "amount", "currentdue", "due"]

/-- One iteration of the column loop of `_find_billing_columns`: the
`if/elif` chain over one column label, updating the (block, flat, amount)
selection state. -/
def billingColumnStep (st : Option String × Option String × Option String)
    (col : String) : Option String × Option String × Option String :=
  let cl := pyLower col
  let b := st.1
  let f := st.2.1
  let a := st.2.2
  if strContains cl "block" && b.isNone then
    (some col, f, a)
  else if strContains cl "flat" && !strContains cl "square" && f.isNone then
    (b, some col, a)
  else if containsAny cl amountKeywords && a.isNone then
    (b, f, some col)
  else
    st

/-- `FlatDataProcessor._find_billing_columns`: scan the column labels in
order and return the selected (block, flat, amount) columns. -/
def findBillingColumns (cols : List String) :
    Option String × Option String × Option String :=
  cols.foldl billingColumnStep (none, none, none)

/-! ## FlatDataProcessor._create_flat_data (data_processor.py 138-168) -/

/-- The Block/FlatNum cleaning of `_create_flat_data`:
`astype(str).str.strip().str.replace('<','').str.replace('>','')`. -/
def cleanId (c : Cell) : String :=
  dropChar (dropChar (pyTrim (cellToStr c)) '<') '>'

/-- The row filter of `_create_flat_data` (lines 155-163).  The
`notna()` conjuncts are omitted: after `astype(str)` every value is a
string, so they are always true (a NaN cell has already become `"nan"`). -/
def keepFlatRow (block flatnum : String) : Bool :=
  block ≠ "" && flatnum ≠ "" && block ≠ "nan" && flatnum ≠ "nan" &&
    !containsAny (pyLower block) ["total", "sum", "grand"]

/-- `FlatDataProcessor._create_flat_data`: rows arrive as
(block cell, flat cell, amount cell); clean the identifier parts, coerce
the amount, filter invalid rows, and emit (Block ++ FlatNum, Amount) —
one output row per retained input row. -/
def createFlatData (rows : List (Cell × Cell × Cell)) : Table :=
  ((rows.map (fun r => (cleanId r.1, cleanId r.2.1, toNumericD r.2.2))).filter
      (fun r => keepFlatRow r.1 r.2.1)).map
    (fun r => (r.1 ++ r.2.1, r.2.2))

/-! ## FlatDataProcessor._create_allocation_data (data_processor.py 219-243) -/

/-- The Flat cleaning of `_create_allocation_data`: `astype(str).str.strip()`. -/
def cleanAllocId (c : Cell) : String :=
  pyTrim (cellToStr c)

/-- The row filter of `_create_allocation_data` (lines 232-238). -/
def keepAllocRow (flat : String) : Bool :=
  flat ≠ "" && flat ≠ "nan" && flat ≠ "None" &&
    !containsAny (pyLower flat) ["total", "sum", "grand"]

/-- `FlatDataProcessor._create_allocation_data`: rows arrive as
(apartment cell, total cell); same shape as `createFlatData` but with a
single identifier column. -/
def createAllocationData (rows : List (Cell × Cell)) : Table :=
  ((rows.map (fun r => (cleanAllocId r.1, toNumericD r.2))).filter
      (fun r => keepAllocRow r.1)).map (fun r => (r.1, r.2))

/-! ## FlatAnalyzer (data_processor.py 253-359) -/

/-- One merged comparison row: the columns of the `merged` frame built by
`analyze_consumption_changes` after the outer join and `fillna(0)`. -/
structure MRow where
  flat : String
  amountLast : ℚ
  amountThis : ℚ
  changeAmount : ℚ
  changePercent : ℚ
deriving DecidableEq, Repr

/-- The `Change_Percent` formula (lines 277-281): nested `np.where` —
`(this - last) / last * 100` when `last > 0`, else 100 when `this > 0`,
else 0. -/
def pctChange (aLast aThis : ℚ) : ℚ :=
  if 0 < aLast then (aThis - aLast) / aLast * 100
  else if 0 < aThis then 100
  else 0

/-- Build one comparison record: `Change_Amount = this - last` (line 276)
and `Change_Percent` as above. -/
def mkMRow (flat : String) (aLast aThis : ℚ) : MRow :=
  ⟨flat, aLast, aThis, aThis - aLast, pctChange aLast aThis⟩

/-- The change-computation stage of `analyze_consumption_changes`, applied
to the merged (flat, last amount, this amount) rows. -/
def analyzeRows (pairs : List (String × ℚ × ℚ)) : List MRow :=
  pairs.map (fun p => mkMRow p.1 p.2.1 p.2.2)

/-- The `zero_consumption` category of `_categorize_flats` (lines 332-335):
rows with `Amount_this_month == 0` and `Amount_last_month > 0`, sorted by
`Amount_last_month` descending. -/
def zeroConsumption (merged : List MRow) : List MRow :=
  (merged.filter (fun r => r.amountThis == 0 && decide (0 < r.amountLast))).mergeSort
    (fun a b => decide (b.amountLast ≤ a.amountLast))

/-! ## Workbook patch engine
(`BillingWorkflowManager.get_updated_billing_template_download`,
billing_processor.py 394-550) -/

/-- An openpyxl cell: its value plus the `data_type == 'f'` flag.  An empty
value (`None`) is `Cell.empty`. -/
structure PCell where
  value : Cell
  isFormula : Bool
deriving DecidableEq, Repr

/-- An openpyxl worksheet: `max_row`/`max_column` plus the cell grid,
addressed 1-based as in openpyxl. -/
structure Worksheet where
  maxRow : ℕ
  maxCol : ℕ
  cell : ℕ → ℕ → PCell

/-- The clearing loop (billing_processor.py 420-428): for
`row in range(1, min(1000, max_row + 100))` and
`col in range(1, min(50, max_column + 10))`, set `cell.value = None`
unless `cell.data_type == 'f'` (formulas are skipped). -/
def clearDataArea (ws : Worksheet) : Worksheet :=
  { ws with
    cell := fun r c =>
      if 1 ≤ r ∧ r < min 1000 (ws.maxRow + 100) ∧
          1 ≤ c ∧ c < min 50 (ws.maxCol + 10) ∧
          (ws.cell r c).isFormula = false then
        ⟨Cell.empty, false⟩
      else ws.cell r c }

/-- The replacement-table footprint: the value `dataframe_to_rows` yields
for 1-based coordinates (r, c), when the write loop reaches that cell. -/
def dataAt (data : List (List Cell)) (r c : ℕ) : Option Cell :=
  if r = 0 ∨ c = 0 then none
  else (data.get? (r - 1)).bind (fun row => row.get? (c - 1))

/-- Longest row of the replacement table (for the new `max_column`). -/
def maxRowLen (data : List (List Cell)) : ℕ :=
  (data.map List.length).foldr max 0

/-- The write loop (billing_processor.py 431-437): starting at A1, write
every value of the replacement table with `ws.cell(row, col, value=value)` —
unconditionally, with no formula check. -/
def writeDataRows (ws : Worksheet) (data : List (List Cell)) : Worksheet :=
  { maxRow := max ws.maxRow data.length
    maxCol := max ws.maxCol (maxRowLen data)
    cell := fun r c =>
      match dataAt data r c with
      | some v => ⟨v, false⟩
      | none => ws.cell r c }

/-- The WeGot-report sheet replacement of
`get_updated_billing_template_download`: clear the bounded data area
(skipping formulas), then write the replacement table from A1. -/
def patchWeGotSheet (ws : Worksheet) (data : List (List Cell)) : Worksheet :=
  writeDataRows (clearDataArea ws) data

/-! ## Template mapping engine
(`BillingWorkflowManager._generate_adda_template_from_file`,
billing_processor.py 355-392) -/

/-- Python `s.strip('<>')`: remove leading and trailing `<`/`>` characters. -/
def stripAngles (s : String) : String :=
  ⟨((s.toList.dropWhile (fun c => c = '<' ∨ c = '>')).reverse.dropWhile
      (fun c => c = '<' ∨ c = '>')).reverse⟩

/-- One row of the Adda template after the column rename to
`expected_columns` (billing_processor.py 363-367). -/
structure AddaRow where
  keyField : Cell
  block : String
  flat : String
  squareFeet : Cell
  category : Cell
  name : Cell
  currentDue : Cell
  accountNo : Cell
  amount : Cell
  invoiceDate : Cell
  comment : Cell
deriving DecidableEq, Repr

/-- The fixed comment written by the template mapper. -/
def waterComment : String := "Water cost at actuals"

/-- The per-row body of the template-mapping loop (billing_processor.py
370-387): skip index 0, build the apartment code from the bracket-stripped
Block and Flat columns, and when a matching allocation row exists overwrite
the amount, account-number, invoice-date and comment columns.  `alloc` is
`final_allocation_df` as (Apartment, To_Be_Billed) pairs, `today` the
`datetime.now()` date string. -/
def updateAddaRow (alloc : List (String × ℤ)) (today : String) (idx : ℕ)
    (r : AddaRow) : AddaRow :=
  if idx = 0 then r
  else
    match alloc.find? (fun p => p.1 == stripAngles r.block ++ stripAngles r.flat) with
    | some p =>
        { r with
          amount := Cell.num (p.2 : ℚ)
          accountNo := Cell.num 301004
          invoiceDate := Cell.text today
          comment := Cell.text waterComment }
    | none => r

/-- The `for idx, row in adda_template.iterrows()` loop, carrying the
running row index. -/
def genAddaRows (alloc : List (String × ℤ)) (today : String) :
    ℕ → List AddaRow → List AddaRow
  | _, [] => []
  | idx, r :: rest =>
      updateAddaRow alloc today idx r :: genAddaRows alloc today (idx + 1) rest

/-- `BillingWorkflowManager._generate_adda_template_from_file` applied to
the loaded template rows. -/
def generateAddaTemplate (alloc : List (String × ℤ)) (today : String)
    (rows : List AddaRow) : List AddaRow :=
  genAddaRows alloc today 0 rows

/-! ## Patch fallback policy
(`get_updated_billing_template_download`, billing_processor.py 413-547) -/

/-- The caller-visible result of `get_updated_billing_template_download`:
`primaryResult` is the outcome of the openpyxl (preserve-formulas) path,
`fallbackTemplate` the serialized pandas rebuild of
`self.updated_billing_template` when that field is set.  On a primary
failure the `except` block returns the rebuilt bytes directly; only when
the rebuild is unavailable does it raise, and the outer handler prefixes
the message. -/
def getUpdatedTemplateDownload (primaryResult : Except String (List ℕ))
    (fallbackTemplate : Option (List ℕ)) : Except String (List ℕ) :=
  match primaryResult with
  | .ok b => .ok b
  | .error _ =>
      match fallbackTemplate with
      | some b => .ok b
      | none =>
          .error ("Error generating updated billing template: " ++
            "Both openpyxl and updated template approaches failed")

/-- The priority-phase selections of `_get_processing_order`, phrased as a
`filterMap` (one optional pick per priority marker, in listed order). -/
def prioritySel (names : List String) : List String :=
  prioritySheets.filterMap
    (fun p => names.find? (fun s => strContains (pyLower s) p))

/-- Header row of a small concrete Adda template. -/
def addaHeaderRow : AddaRow :=
  ⟨Cell.text "KeyField", "Block", "Flat", Cell.empty, Cell.empty,
    Cell.empty, Cell.empty, Cell.empty, Cell.empty, Cell.empty, Cell.empty⟩

/-- Data row of a small concrete Adda template, identifying `<A>`/`<101>`. -/
def addaDataRow : AddaRow :=
  ⟨Cell.empty, "<A>", "<101>", Cell.num 1200, Cell.text "Standard",
    Cell.text "Owner", Cell.num 0, Cell.num 301004, Cell.num 0,
    Cell.empty, Cell.empty⟩

/-- A one-cell worksheet whose only cell A1 holds a formula — used to
exercise the patch engine on a formula cell. -/
def formulaSheet : Worksheet :=
  ⟨1, 1, fun r c =>
    if r = 1 ∧ c = 1 then ⟨Cell.text "=SUM(A2:A9)", true⟩
    else ⟨Cell.empty, false⟩⟩

/-! ## Theorems -/

/-- C1: the diff engine's percentage change is
`(current - prior) / prior * 100` when `prior > 0`; when `prior = 0` it is
100 if `current > 0` and 0 if `current = 0`; in particular
`(0, 150) ↦ 100`, `(0, 0) ↦ 0` and `(100, 50) ↦ -50`. -/
theorem pctChange_spec :
    (∀ prior current : ℚ, 0 < prior →
        pctChange prior current = (current - prior) / prior * 100) ∧
    (∀ current : ℚ, 0 < current → pctChange 0 current = 100) ∧
    pctChange 0 0 = 0 ∧ pctChange 0 150 = 100 ∧ pctChange 100 50 = -50 := by
  refine ⟨?_, ?_, ?_, ?_, ?_⟩
  · intro prior current h
    simp [pctChange, h]
  · intro current h
    simp [pctChange, h, lt_irrefl]
  · norm_num [pctChange]
  · norm_num [pctChange]
  · norm_num [pctChange]

/-- Witness for C1 at prior = 100, current = 50. -/
theorem pctChange_spec_witness :
    (0 : ℚ) < 100 ∧ pctChange 100 50 = ((50 : ℚ) - 100) / 100 * 100 :=
  ⟨by norm_num, pctChange_spec.1 100 50 (by norm_num)⟩

/-- C10: every record of the `zero_consumption` category (current = 0 and
prior > 0) has absolute change equal to minus its prior amount, strictly
negative, and percentage change exactly -100. -/
theorem zeroConsumption_spec :
    ∀ (pairs : List (String × ℚ × ℚ)) (r : MRow),
      r ∈ zeroConsumption (analyzeRows pairs) →
      r.changeAmount = -r.amountLast ∧ r.changeAmount < 0 ∧
        r.changePercent = -100 := by
  intro pairs r hr
  rw [zeroConsumption, (List.mergeSort_perm _ _).mem_iff, List.mem_filter] at hr
  obtain ⟨hmem, hpred⟩ := hr
  simp only [Bool.and_eq_true, beq_iff_eq, decide_eq_true_eq] at hpred
  obtain ⟨hthis, hlast⟩ := hpred
  obtain ⟨p, -, hp⟩ := List.mem_map.mp hmem
  subst hp
  simp only [mkMRow] at hthis hlast ⊢
  rw [hthis]
  have hne : p.2.1 ≠ 0 := ne_of_gt hlast
  refine ⟨by ring, by simpa using hlast, ?_⟩
  rw [pctChange, if_pos hlast]
  field_simp

/-- Witness for C10 at the single merged row ("A101", 300, 0). -/
theorem zeroConsumption_spec_witness :
    mkMRow "A101" 300 0 ∈ zeroConsumption (analyzeRows [("A101", 300, 0)]) ∧
    (mkMRow "A101" 300 0).changeAmount = -(mkMRow "A101" 300 0).amountLast ∧
    (mkMRow "A101" 300 0).changeAmount < 0 ∧
    (mkMRow "A101" 300 0).changePercent = -100 := by
  have hm : mkMRow "A101" 300 0 ∈ zeroConsumption (analyzeRows [("A101", 300, 0)]) := by
    simp [zeroConsumption, analyzeRows, mkMRow, List.filter, List.mergeSort_singleton]
  exact ⟨hm, zeroConsumption_spec [("A101", 300, 0)] _ hm⟩

/-- C6 counterexample: when the primary openpyxl path fails and the pandas
rebuild is available, the caller receives plain `.ok` bytes — the very same
value a primary success would produce — so the lossy fallback is not
surfaced as a warning. -/
theorem fallback_not_surfaced_cex :
    getUpdatedTemplateDownload (.error "openpyxl failed") (some [7]) = .ok [7] ∧
    getUpdatedTemplateDownload (.error "openpyxl failed") (some [7]) =
      getUpdatedTemplateDownload (.ok [7]) (some [7]) :=
  ⟨rfl, rfl⟩

/-- C6 amended: the fallback is silent — a primary failure with an
available rebuilt template returns the rebuilt bytes with no warning; only
when the rebuild is also unavailable is an error raised to the caller. -/
theorem fallback_silent_spec :
    (∀ (e : String) (b : List ℕ),
        getUpdatedTemplateDownload (.error e) (some b) = .ok b) ∧
    (∀ e : String,
        getUpdatedTemplateDownload (.error e) none =
          .error ("Error generating updated billing template: " ++
            "Both openpyxl and updated template approaches failed")) :=
  ⟨fun _ _ => rfl, fun _ => rfl⟩

/-- C7 counterexample: in the snapshot-table loader an unreadable workbook
(`pd.ExcelFile` raising) is absorbed by the `except` clause into `None` —
the same non-fatal "no data found" result an empty readable workbook
yields — rather than failing fatally. -/
theorem unreadable_workbook_absorbed_cex :
    loadFlatData (.error "Unsupported format, or corrupt file") = none ∧
    loadFlatData (.ok []) = none ∧
    loadFlatData (.error "Unsupported format, or corrupt file") =
      loadFlatData (.ok []) :=
  ⟨rfl, rfl, rfl⟩

/-- C7 amended: the billing-template loader surfaces an unreadable
workbook immediately as an error with no fallback, while the flat-data
loader absorbs it into the non-fatal `None` result. -/
theorem unreadable_workbook_handling :
    (∀ e : String,
        loadBillingTemplate (.error e) =
          .error ("Error loading billing template: " ++ e)) ∧
    (∀ e : String, loadFlatData (.error e) = none) :=
  ⟨fun _ => rfl, fun _ => rfl⟩

/-- Indexing the template-mapping loop: the row at position `i` of the
output is the input row at `i` updated with running index `n + i`. -/
theorem genAddaRows_get? (alloc : List (String × ℤ)) (today : String) :
    ∀ (rows : List AddaRow) (n i : ℕ),
      (genAddaRows alloc today n rows).get? i =
        (rows.get? i).map (updateAddaRow alloc today (n + i)) := by
  intro rows
  induction rows with
  | nil => intro n i; simp [genAddaRows]
  | cons r rest ih =>
      intro n i
      cases i with
      | zero => simp [genAddaRows]
      | succ j =>
          simp only [genAddaRows, List.get?_cons_succ, ih (n + 1) j]
          rw [Nat.add_right_comm n 1 j, Nat.add_assoc]

/-- C5: a data row (index ≥ 1) of the output template whose
bracket-stripped Block ++ Flat code matches an allocation row has exactly
its amount, account-number, invoice-date and comment columns overwritten
(all other columns of the row kept); a row with no match — and the header
row — is returned entirely unchanged. -/
theorem adda_template_row_mapping :
    ∀ (alloc : List (String × ℤ)) (today : String) (rows : List AddaRow)
      (idx : ℕ) (r : AddaRow),
      rows.get? idx = some r →
      (∀ p, idx ≠ 0 →
          alloc.find? (fun q => q.1 == stripAngles r.block ++ stripAngles r.flat) =
            some p →
          (generateAddaTemplate alloc today rows).get? idx =
            some { r with
                   amount := Cell.num (p.2 : ℚ)
                   accountNo := Cell.num 301004
                   invoiceDate := Cell.text today
                   comment := Cell.text waterComment }) ∧
      (idx ≠ 0 →
          alloc.find? (fun q => q.1 == stripAngles r.block ++ stripAngles r.flat) =
            none →
          (generateAddaTemplate alloc today rows).get? idx = some r) ∧
      (idx = 0 → (generateAddaTemplate alloc today rows).get? idx = some r) := by
  intro alloc today rows idx r hget
  have hidx : (generateAddaTemplate alloc today rows).get? idx =
      some (updateAddaRow alloc today idx r) := by
    rw [generateAddaTemplate, genAddaRows_get?, hget, Nat.zero_add]
    rfl
  refine ⟨?_, ?_, ?_⟩
  · intro p hne hfind
    rw [hidx, updateAddaRow, if_neg hne, hfind]
  · intro hne hfind
    rw [hidx, updateAddaRow, if_neg hne, hfind]
  · intro h0
    rw [hidx, updateAddaRow, if_pos h0]

/-- Witness for C5: a two-row template (header plus one data row for
`<A>`/`<101>`) against the allocation {A101 ↦ 1500}. -/
theorem adda_template_row_mapping_witness :
    ([addaHeaderRow, addaDataRow].get? 1 = some addaDataRow) ∧
    [("A101", (1500 : ℤ))].find?
        (fun q => q.1 == stripAngles addaDataRow.block ++
          stripAngles addaDataRow.flat) =
      some ("A101", 1500) ∧
    (generateAddaTemplate [("A101", 1500)] "2026-10-12"
        [addaHeaderRow, addaDataRow]).get? 1 =
      some { addaDataRow with
             amount := Cell.num ((1500 : ℤ) : ℚ)
             accountNo := Cell.num 301004
             invoiceDate := Cell.text "2026-10-12"
             comment := Cell.text waterComment } := by
  refine ⟨rfl, by decide, ?_⟩
  exact (adda_template_row_mapping [("A101", 1500)] "2026-10-12"
      [addaHeaderRow, addaDataRow] 1 addaDataRow rfl).1
    ("A101", 1500) (by decide) (by decide)

/-- C2 counterexample: the bounded-region clearing skips formula cells, but
the replacement-table write loop does not — writing a one-cell table over a
worksheet whose A1 holds a formula replaces the formula's content. -/
theorem patch_formula_overwritten_cex :
    formulaSheet.cell 1 1 = ⟨Cell.text "=SUM(A2:A9)", true⟩ ∧
    (patchWeGotSheet formulaSheet [[Cell.text "S.No"]]).cell 1 1 =
      ⟨Cell.text "S.No", false⟩ ∧
    (patchWeGotSheet formulaSheet [[Cell.text "S.No"]]).cell 1 1 ≠
      formulaSheet.cell 1 1 := by
  refine ⟨rfl, rfl, ?_⟩
  decide

/-- C2 amended: the clearing phase never touches a formula cell, and a
formula cell outside the replacement table's footprint keeps its content;
but a formula cell inside the written footprint is overwritten (see the
counterexample). -/
theorem patch_formula_preservation :
    (∀ (ws : Worksheet) (r c : ℕ), (ws.cell r c).isFormula = true →
        (clearDataArea ws).cell r c = ws.cell r c) ∧
    (∀ (ws : Worksheet) (data : List (List Cell)) (r c : ℕ),
        (ws.cell r c).isFormula = true → dataAt data r c = none →
        (patchWeGotSheet ws data).cell r c = ws.cell r c) := by
  have hclear : ∀ (ws : Worksheet) (r c : ℕ), (ws.cell r c).isFormula = true →
      (clearDataArea ws).cell r c = ws.cell r c := by
    intro ws r c h
    rw [clearDataArea]
    simp only [h]
    simp
  refine ⟨hclear, ?_⟩
  intro ws data r c h hdata
  rw [patchWeGotSheet, writeDataRows]
  simp only [hdata]
  exact hclear ws r c h

/-- Witness for C2's amended statement: an empty replacement table leaves
the formula in A1 untouched. -/
theorem patch_formula_preservation_witness :
    (formulaSheet.cell 1 1).isFormula = true ∧
    dataAt [] 1 1 = none ∧
    (patchWeGotSheet formulaSheet []).cell 1 1 = formulaSheet.cell 1 1 :=
  ⟨rfl, rfl, patch_formula_preservation.2 formulaSheet [] 1 1 rfl rfl⟩

/-- C3 counterexample: a sheet with two retained rows for the same
normalized identifier produces a snapshot table holding that identifier
twice — one row per occurrence — not once with the last amount. -/
theorem snapshot_duplicate_identifier_cex :
    createFlatData [(Cell.text "A", Cell.text "101", Cell.num 5),
        (Cell.text "A", Cell.text "101", Cell.num 7)] =
      [("A101", 5), ("A101", 7)] ∧
    ((createFlatData [(Cell.text "A", Cell.text "101", Cell.num 5),
          (Cell.text "A", Cell.text "101", Cell.num 7)]).map
        Prod.fst).count "A101" = 2 := by
  constructor
  · decide
  · decide

/-- C3 amended: the snapshot table keeps one row per retained occurrence
of an identifier (the count of an identifier in the table equals the
number of retained source rows normalizing to it), each with its own
amount in input order; no deduplication or last-write-wins overwrite is
performed. -/
theorem snapshot_keeps_every_occurrence :
    (∀ (rows : List (Cell × Cell × Cell)) (i : String),
        ((createFlatData rows).map Prod.fst).count i =
          rows.countP (fun r =>
            keepFlatRow (cleanId r.1) (cleanId r.2.1) &&
              (cleanId r.1 ++ cleanId r.2.1 == i))) ∧
    createFlatData [(Cell.text "B", Cell.text "202", Cell.num 3),
        (Cell.text "B", Cell.text "202", Cell.num 4)] =
      [("B202", 3), ("B202", 4)] := by
  constructor
  · intro rows i
    rw [createFlatData, List.count_eq_countP, List.countP_map, List.countP_map,
      List.countP_filter, List.countP_map]
    apply List.countP_congr
    intro r _
    simp [Function.comp, Bool.and_comm]
  · decide

/-- C9 counterexample: a numeric amount cell holding -50 passes
`pd.to_numeric` unchanged and the row is retained, so the snapshot table
carries a negative amount. -/
theorem negative_amount_retained_cex :
    createFlatData [(Cell.text "A", Cell.text "101", Cell.num (-50))] =
      [("A101", -50)] ∧
    ∃ p ∈ createFlatData [(Cell.text "A", Cell.text "101", Cell.num (-50))],
      p.2 < 0 := by
  constructor
  · decide
  · decide

/-- C9 amended: an amount cell that fails numeric coercion is stored as 0
and never causes the row to be dropped (row retention only inspects the
identifier columns); every stored amount is the coerced value of its
source cell, which can be negative when the source holds a negative
number. -/
theorem amount_coercion_spec :
    (∀ c : Cell, (∀ q : ℚ, c ≠ Cell.num q) → toNumericD c = 0) ∧
    (∀ (rows : List (Cell × Cell × Cell)) (p : String × ℚ),
        p ∈ createFlatData rows → ∃ r ∈ rows, p.2 = toNumericD r.2.2) ∧
    (∀ (rows : List (Cell × Cell)) (p : String × ℚ),
        p ∈ createAllocationData rows → ∃ r ∈ rows, p.2 = toNumericD r.2) := by
  refine ⟨?_, ?_, ?_⟩
  · intro c h
    cases c with
    | num q => exact absurd rfl (h q)
    | text s => rfl
    | empty => rfl
  · intro rows p hp
    rw [createFlatData] at hp
    obtain ⟨x, hx, hpx⟩ := List.mem_map.mp hp
    obtain ⟨hx2, -⟩ := List.mem_filter.mp hx
    obtain ⟨r, hr, hfr⟩ := List.mem_map.mp hx2
    refine ⟨r, hr, ?_⟩
    rw [← hpx, ← hfr]
  · intro rows p hp
    rw [createAllocationData] at hp
    obtain ⟨x, hx, hpx⟩ := List.mem_map.mp hp
    obtain ⟨hx2, -⟩ := List.mem_filter.mp hx
    obtain ⟨r, hr, hfr⟩ := List.mem_map.mp hx2
    refine ⟨r, hr, ?_⟩
    rw [← hpx, ← hfr]

/-- Witness for C9's amended statement: an unparsable amount cell in both
extractors yields a retained row with amount 0. -/
theorem amount_coercion_spec_witness :
    toNumericD (Cell.text "N/A") = 0 ∧
    ("A101", (0 : ℚ)) ∈
      createFlatData [(Cell.text "A", Cell.text "101", Cell.text "N/A")] ∧
    (∃ r ∈ [(Cell.text "A", Cell.text "101", Cell.text "N/A")],
        (("A101", (0 : ℚ))).2 = toNumericD r.2.2) ∧
    ("A101", (0 : ℚ)) ∈
      createAllocationData [(Cell.text "A101", Cell.text "oops")] ∧
    (∃ r ∈ [(Cell.text "A101", Cell.text "oops")],
        (("A101", (0 : ℚ))).2 = toNumericD r.2) :=
  ⟨amount_coercion_spec.1 (Cell.text "N/A") (fun _ h => Cell.noConfusion h),
    by decide,
    amount_coercion_spec.2.1 [(Cell.text "A", Cell.text "101", Cell.text "N/A")]
      ("A101", 0) (by decide),
    by decide,
    amount_coercion_spec.2.2 [(Cell.text "A101", Cell.text "oops")]
      ("A101", 0) (by decide)⟩

/-- One step of the `_find_billing_columns` scan preserves the invariant
that a selected flat column contains "flat" and not "square". -/
theorem billingColumnStep_flat_inv (c : String)
    (st : Option String × Option String × Option String)
    (h : ∀ f, st.2.1 = some f →
      strContains (pyLower f) "flat" = true ∧
        strContains (pyLower f) "square" = false) :
    ∀ f, (billingColumnStep st c).2.1 = some f →
      strContains (pyLower f) "flat" = true ∧
        strContains (pyLower f) "square" = false := by
  obtain ⟨b, f0, a⟩ := st
  intro f hf
  simp only [billingColumnStep] at hf
  split at hf
  · exact h f hf
  · split at hf
    · rename_i hcond
      have hf' : some c = some f := hf
      cases hf'
      simp only [Bool.and_eq_true, Bool.not_eq_true'] at hcond
      exact ⟨hcond.1.1, hcond.1.2⟩
    · split at hf
      · exact h f hf
      · exact h f hf

/-- The flat-column invariant holds across the whole scan. -/
theorem findBillingColumns_flat_inv :
    ∀ (cols : List String) (st : Option String × Option String × Option String),
      (∀ f, st.2.1 = some f →
        strContains (pyLower f) "flat" = true ∧
          strContains (pyLower f) "square" = false) →
      ∀ f, (cols.foldl billingColumnStep st).2.1 = some f →
        strContains (pyLower f) "flat" = true ∧
          strContains (pyLower f) "square" = false := by
  intro cols
  induction cols with
  | nil => intro st h; exact h
  | cons c rest ih =>
      intro st h
      rw [List.foldl_cons]
      exact ih _ (billingColumnStep_flat_inv c st h)

/-- C8 counterexample: `_find_billing_columns` has no area/size check on
the amount branch — a label containing both an amount keyword and
"square" is selected as the amount column. -/
theorem amount_role_square_cex :
    findBillingColumns ["Block", "Flat No", "Amount square feet"] =
      (some "Block", some "Flat No", some "Amount square feet") ∧
    containsAny (pyLower "Amount square feet") amountKeywords = true ∧
    strContains (pyLower "Amount square feet") "square" = true :=
  ⟨by decide, by decide, by decide⟩

/-- C8 amended: the "square" exclusion applies to the flat-identifier
role, not the amount role — a selected flat column always contains "flat"
and never "square", while an amount-keyword label containing "square" can
still be selected as the amount column. -/
theorem square_rule_on_flat_role :
    (∀ (cols : List String) (b a : Option String) (f : String),
        findBillingColumns cols = (b, some f, a) →
        strContains (pyLower f) "flat" = true ∧
          strContains (pyLower f) "square" = false) ∧
    findBillingColumns ["Block", "Flat", "Due in square feet"] =
      (some "Block", some "Flat", some "Due in square feet") := by
  constructor
  · intro cols b a f h
    rw [findBillingColumns] at h
    apply findBillingColumns_flat_inv cols (none, none, none)
      (fun f hf => by cases hf)
    rw [h]
  · decide

/-- Witness for C8's amended statement at the single label "Flat No". -/
theorem square_rule_on_flat_role_witness :
    findBillingColumns ["Flat No"] = (none, some "Flat No", none) ∧
    strContains (pyLower "Flat No") "flat" = true ∧
    strContains (pyLower "Flat No") "square" = false := by
  have h := square_rule_on_flat_role.1 ["Flat No"] none none "Flat No" (by decide)
  exact ⟨by decide, h.1, h.2⟩

/-- The sheet loop returns the first success: sheets before it all yield
`None`, later sheets are never consulted. -/
theorem firstHit_append (process : String → Option Table) :
    ∀ (l₁ l₂ : List String) (s : String) (t : Table),
      (∀ x ∈ l₁, process x = none) → process s = some t →
      firstHit (l₁ ++ s :: l₂) process = some t := by
  intro l₁
  induction l₁ with
  | nil =>
      intro l₂ s t _ hs
      simp only [List.nil_append, firstHit, hs]
  | cons a as ih =>
      intro l₂ s t h hs
      have ha : process a = none := h a (by simp)
      simp only [List.cons_append, firstHit, ha]
      exact ih l₂ s t (fun x hx => h x (by simp [hx])) hs

/-- The priority phase of `_get_processing_order` equals the per-marker
`filterMap` of first matches. -/
theorem addPriority_eq (names : List String) :
    addPriority names = prioritySel names := by
  have key : ∀ (pick : String → Option String) (ps acc : List String),
      ps.foldl (fun acc p =>
          match pick p with
          | some s => acc ++ [s]
          | none => acc) acc =
        acc ++ ps.filterMap pick := by
    intro pick ps
    induction ps with
    | nil => intro acc; simp
    | cons p rest ih =>
        intro acc
        rw [List.foldl_cons, List.filterMap_cons]
        cases hfind : pick p with
        | none => simp only [hfind, ih]
        | some s => simp only [hfind, ih, List.append_assoc, List.singleton_append]
  have h := key (fun p => names.find? (fun s => strContains (pyLower s) p))
    prioritySheets []
  rw [addPriority, prioritySel]
  rw [h, List.nil_append]

/-- The remaining phase of `_get_processing_order`, for duplicate-free
sheet-name lists, appends exactly the not-yet-listed, non-deny-listed
sheets in workbook order. -/
theorem addRemaining_eq :
    ∀ (names order : List String), names.Nodup →
      addRemaining order names =
        order ++ names.filter
          (fun s => decide (s ∉ order) && !isExcludedSheet s) := by
  intro names
  induction names with
  | nil => intro order _; simp [addRemaining]
  | cons a rest ih =>
      intro order h
      rw [List.nodup_cons] at h
      obtain ⟨ha, hrest⟩ := h
      rw [addRemaining, List.foldl_cons]
      by_cases hc : a ∈ order ∨ isExcludedSheet a
      · rw [if_pos hc]
        have hrec := ih order hrest
        rw [addRemaining] at hrec
        rw [hrec]
        have hpa : (decide (a ∉ order) && !isExcludedSheet a) = false := by
          rcases hc with h1 | h1
          · simp [h1]
          · simp [h1]
        rw [List.filter_cons, hpa, if_neg Bool.false_ne_true]
      · rw [if_neg hc]
        push_neg at hc
        obtain ⟨h1, h2⟩ := hc
        have hrec := ih (order ++ [a]) hrest
        rw [addRemaining] at hrec
        rw [hrec]
        have hpa : (decide (a ∉ order) && !isExcludedSheet a) = true := by
          simp [h1, h2]
        have hfeq : List.filter
            (fun s => decide (s ∉ order ++ [a]) && !isExcludedSheet s) rest =
            List.filter (fun s => decide (s ∉ order) && !isExcludedSheet s)
              rest := by
          apply List.filter_congr
          intro x hx
          have hxa : x ≠ a := fun e => ha (e ▸ hx)
          simp [List.mem_append, hxa]
        rw [hfeq, List.filter_cons, hpa, if_pos rfl]
        rw [List.append_assoc, List.singleton_append]

/-- C4 counterexample: the sheet loop returns the first non-`None` table
even when that table is empty — here the first sheet yields the empty
table and masks the later sheet's non-empty one, so the first sheet
yielding a *non-empty* table does not win.  The first conjunct shows an
empty table is a reachable sheet result: an allocation sheet whose only
row is an aggregate marker filters down to nothing without becoming
`None`. -/
theorem empty_table_first_wins_cex :
    createAllocationData [(Cell.text "Grand Total", Cell.num 500)] = [] ∧
    loadFlatData
        (.ok [("data1", some []), ("data2", some [("A1", (1 : ℚ))])]) =
      some [] ∧
    loadFlatData
        (.ok [("data1", some []), ("data2", some [("A1", (1 : ℚ))])]) ≠
      some [("A1", 1)] :=
  ⟨by decide, rfl, by decide⟩

/-- C4 amended: sheets are tried in the fixed priority order — per-marker
first matches, then the remaining non-deny-listed sheets in workbook
order — and the first sheet yielding *any* table (empty included) wins:
whenever the processing order splits as `l₁ ++ s :: l₂` with every sheet
of `l₁` yielding `None` and `s` yielding a table, that table is the
result, regardless of anything (including row counts) about the sheets
of `l₂`. -/
theorem sheet_selection_greedy :
    (∀ (process : String → Option Table) (names l₁ l₂ : List String)
        (s : String) (t : Table),
        getProcessingOrder names = l₁ ++ s :: l₂ →
        (∀ x ∈ l₁, process x = none) → process s = some t →
        loadFlatDataWith process names = some t) ∧
    (∀ names : List String, names.Nodup →
        getProcessingOrder names =
          prioritySel names ++
            names.filter
              (fun s => decide (s ∉ prioritySel names) &&
                !isExcludedSheet s)) := by
  constructor
  · intro process names l₁ l₂ s t horder h1 hs
    rw [loadFlatDataWith, horder]
    exact firstHit_append process l₁ l₂ s t h1 hs
  · intro names h
    rw [getProcessingOrder, addRemaining_eq names _ h, addPriority_eq]

/-- Witness for C4: a two-sheet workbook where only the second sheet
yields a table. -/
theorem sheet_selection_greedy_witness :
    getProcessingOrder ["data1", "data2"] = ["data1"] ++ "data2" :: [] ∧
    (∀ x ∈ ["data1"],
        (fun n => if n = "data2" then some [("A1", (1 : ℚ))] else none) x =
          none) ∧
    (fun n => if n = "data2" then some [("A1", (1 : ℚ))] else none) "data2" =
      some [("A1", 1)] ∧
    loadFlatDataWith
        (fun n => if n = "data2" then some [("A1", (1 : ℚ))] else none)
        ["data1", "data2"] =
      some [("A1", 1)] := by
  refine ⟨by decide, by decide, by decide, ?_⟩
  exact sheet_selection_greedy.1
    (fun n => if n = "data2" then some [("A1", 1)] else none)
    ["data1", "data2"] ["data1"] [] "data2" [("A1", 1)]
    (by decide) (by decide) (by decide)

end Sreedapride
